import Mathlib

/-!
Verification development for the `nail-parquet` fixture-generation scripts
(`create_test_samples.py`, Variant B; `create_test_data.py`, Variant A).

The Python code is shallowly embedded: pure data synthesis becomes Lean
functions over ℕ/ℤ/ℚ/String (Python `round(x, 2)` is banker's rounding,
modelled exactly on ℚ); the filesystem/stream side effects of the writers
become explicit event traces; the numpy legacy RandomState generator is
modelled by its contract, as a stream of natural-number draws consumed
sequentially (the bit-level MT19937 algorithm is abstracted; range and
determinism properties are proved for arbitrary streams where possible).
-/

/-- Python `round` to an integer: round-half-to-even (banker's rounding). -/
def roundHalfEven (x : ℚ) : ℤ :=
  if x - ⌊x⌋ < 1/2 then ⌊x⌋
  else if 1/2 < x - ⌊x⌋ then ⌊x⌋ + 1
  else if ⌊x⌋ % 2 = 0 then ⌊x⌋ else ⌊x⌋ + 1

/-- Python `round(x, 2)`: banker's rounding to two decimal places. -/
def pyRound2 (x : ℚ) : ℚ :=
  (roundHalfEven (x * 100) : ℚ) / 100

/-- One record appended by `generate_data` (source lines 13-20): the six
fields `id`, `name`, `value`, `date`, `flag`, `category`. Dates are day
numbers (days since 1970-01-01). -/
structure BRow where
  id : ℕ
  name : String
  value : ℚ
  date : ℤ
  flag : Bool
  category : String
deriving DecidableEq

/-- The pandas DataFrame built by Variant B: `pd.DataFrame(data)` where
`data` is a list of records. -/
structure BDataFrame where
  rows : List BRow
deriving DecidableEq

/-- The six column names of the Variant B records, in insertion order. -/
def variantB_columns : List String :=
  ["id", "name", "value", "date", "flag", "category"]

/-- Column index of `pd.DataFrame` built from a list of records: the keys
of the records (all records share the same keys here). For the empty list
pandas produces an empty column index. -/
def BDataFrame.columns (df : BDataFrame) : List String :=
  if df.rows.isEmpty then [] else variantB_columns

/-- `generate_data(prefix, rows)` (create_test_samples.py lines 8-21).
`today` is the day number of `date.today()`, passed explicitly: row `i`
(1-based) gets `id = i`, `name = prefix_item_i`, `value = round(i*1.1, 2)`,
`date = today - i` days, `flag = (i % 2 == 0)`,
`category = ['A','B','C'][(i-1) % 3]`. -/
def generate_data (pre : String) (rows : ℕ) (today : ℤ) : BDataFrame :=
  { rows :=
      (List.range rows).map (fun j =>
        let i := j + 1
        { id := i
          name := pre ++ "_item_" ++ toString i
          value := pyRound2 ((i : ℚ) * (11/10))
          date := today - (i : ℤ)
          flag := i % 2 == 0
          category := ["A", "B", "C"].getD ((i - 1) % 3) "" }) }

/-- Rounding an exact integer is the identity. -/
lemma roundHalfEven_intCast (n : ℤ) : roundHalfEven ((n : ℚ)) = n := by
  norm_num [roundHalfEven, Int.floor_intCast]

/-- When `x * 100` is exactly the integer `n`, Python `round(x, 2)` returns
`n / 100` exactly. -/
lemma pyRound2_eq_of_mul_hundred (x : ℚ) (n : ℤ) (h : x * 100 = (n : ℚ)) :
    pyRound2 x = (n : ℚ) / 100 := by
  unfold pyRound2
  rw [h, roundHalfEven_intCast]

example : pyRound2 ((3 : ℚ) * (11/10)) = 33/10 := by
  rw [pyRound2_eq_of_mul_hundred ((3 : ℚ) * (11/10)) 330 (by norm_num)]
  norm_num
example : (generate_data "sample" 5 0).rows.map BRow.id = [1, 2, 3, 4, 5] := by decide
example : (generate_data "sample" 0 0).columns = [] := by decide

/-! ## Variant A: `create_test_data.py`

The numpy legacy `RandomState` is modelled by its contract: after
`np.random.seed(s)` the generator is a pure stream of natural-number raw
draws determined solely by `s`, consumed left to right; `randint(lo, hi)`
maps a raw draw into `[lo, hi)`; `choice(xs)` picks an element of `xs`.
The MT19937 bit mixing itself is irrelevant to every claim and is
abstracted: range facts are proved for an arbitrary stream `g`. -/

/-- `np.random.randint(lo, hi)` on one raw draw: a value in `[lo, hi)`. -/
def np_randint (lo hi : ℤ) (r : ℕ) : ℤ :=
  lo + (r : ℤ) % (hi - lo)

/-- `np.random.choice(xs)` on one raw draw: an element of `xs`. -/
def np_choice (xs : List String) (r : ℕ) : String :=
  xs.getD (r % xs.length) ""

/-- `np.random.seed(s)`: the raw-draw stream determined by the seed.
Stand-in mixing function for MT19937; all that matters to the claims is
that it is a pure function of the seed. -/
def np_seed (s : ℕ) : ℕ → ℕ :=
  fun k => (s + 1) * 2654435761 * (k + 1) % 4294967296

/-- A draw of `n` values, raw draws taken at offsets `ofs, ofs+1, ...` of
the stream `g` (the numpy calls consume the seeded stream sequentially). -/
def rngCol {α : Type} (g : ℕ → ℕ) (ofs n : ℕ) (f : ℕ → α) : List α :=
  (List.range n).map (fun i => f (g (ofs + i)))

/-- `n_rows = 1000` (create_test_data.py line 9). -/
def n_rows_A : ℕ := 1000

/-- Day number (days since 1970-01-01) of 2023-01-01, the start of the
`pd.date_range` in create_test_data.py line 20. -/
def date_2023_01_01 : ℤ := 19358

/-- The DataFrame built by `create_test_data` (lines 12-29): a dict of 14
named columns, each of length `n_rows`. Dates are day numbers. -/
structure ATable where
  source : List String
  product : List String
  overall_rating : List ℤ
  condition : List String
  comment : List String
  sex : List String
  duration : List ℤ
  date : List ℤ
  age : List ℤ
  username : List String
  patient_type : List String
  INN : List String
  prediction : List String
  predicted_label : List ℤ
deriving DecidableEq

/-- The 14 column names of the Variant A DataFrame, in dict order. -/
def variantA_columns : List String :=
  ["source", "product", "overall_rating", "condition", "comment", "sex",
   "duration", "date", "age", "username", "patient_type", "INN",
   "prediction", "predicted_label"]

/-- The column lengths of an `ATable`, in column order. -/
def colLengths (tb : ATable) : List ℕ :=
  [tb.source.length, tb.product.length, tb.overall_rating.length,
   tb.condition.length, tb.comment.length, tb.sex.length,
   tb.duration.length, tb.date.length, tb.age.length, tb.username.length,
   tb.patient_type.length, tb.INN.length, tb.prediction.length,
   tb.predicted_label.length]

/-- The data synthesis of `create_test_data` (lines 8-29), parameterized
by the raw-draw stream `g`; the ten random columns consume the stream
sequentially in dict order, 1000 draws each. -/
def create_test_data_with (g : ℕ → ℕ) : ATable :=
  { source := rngCol g 0 n_rows_A (np_choice ["source_A", "source_B", "source_C"])
    product := (List.range n_rows_A).map (fun i => "product_" ++ toString i)
    overall_rating := rngCol g 1000 n_rows_A (np_randint 1 6)
    condition := rngCol g 2000 n_rows_A (np_choice ["condition_1", "condition_2", "condition_3"])
    comment := (List.range n_rows_A).map (fun i => "comment_" ++ toString i)
    sex := rngCol g 3000 n_rows_A (np_choice ["M", "F"])
    duration := rngCol g 4000 n_rows_A (np_randint 1 365)
    date := (List.range n_rows_A).map (fun (i : ℕ) => date_2023_01_01 + (i : ℤ))
    age := rngCol g 5000 n_rows_A (np_randint 18 80)
    username := (List.range n_rows_A).map (fun i => "user_" ++ toString i)
    patient_type := rngCol g 6000 n_rows_A (np_choice ["type_A", "type_B"])
    INN := rngCol g 7000 n_rows_A (np_choice ["INN_1", "INN_2", "INN_3"])
    prediction := rngCol g 8000 n_rows_A (np_choice ["positive", "negative", "neutral"])
    predicted_label := rngCol g 9000 n_rows_A (np_randint 0 3) }

/-- The actual table of a run: `np.random.seed(42)` then the synthesis
(row count fixed at 1000). With the seed fixed, the table is a closed
term — a pure function of nothing but the script text. -/
def create_test_data_table : ATable :=
  create_test_data_with (np_seed 42)

/-! ## Effect traces for the writers

`write_files` (create_test_samples.py lines 23-48) and the tail of
`create_test_data` (lines 31-38) perform filesystem and stream effects.
They are embedded as pure functions producing a list of events in
execution order. A pandas `to_<fmt>` call can raise; the environment
`env : Fmt → Except String Unit` supplies, per format, either success or
the raised error's message. `write_files` returns a full trace for every
environment — by construction no export failure propagates out of it. -/

/-- The four export formats, in the order write_files attempts them. -/
inductive Fmt
  | csv
  | json
  | parquet
  | xlsx
deriving DecidableEq

/-- The filename extension passed to `with_suffix` for each format. -/
def Fmt.ext : Fmt → String
  | Fmt.csv => ".csv"
  | Fmt.json => ".json"
  | Fmt.parquet => ".parquet"
  | Fmt.xlsx => ".xlsx"

/-- The format label used in the status messages. -/
def Fmt.label : Fmt → String
  | Fmt.csv => "CSV"
  | Fmt.json => "JSON"
  | Fmt.parquet => "Parquet"
  | Fmt.xlsx => "Excel"

/-- A `pathlib.Path` split as parent-directory components, stem and
extension (empty string when the path has no suffix). -/
structure PyPath where
  dir : List String
  stem : String
  ext : String
deriving DecidableEq

/-- `Path.with_suffix(e)`: replace the extension. -/
def PyPath.with_suffix (p : PyPath) (e : String) : PyPath :=
  { p with ext := e }

/-- Rendering a path for the status messages. -/
def PyPath.toStr (p : PyPath) : String :=
  String.intercalate "/" (p.dir ++ [p.stem ++ p.ext])

/-- One observable effect of the scripts, in execution order. -/
inductive Event
  | mkdirParents (d : List String)
  | mkdirPlain (d : List String)
  | attempt (f : Fmt) (p : PyPath)
  | written (f : Fmt) (p : PyPath)
  | stdout (s : String)
  | stderr (s : String)
deriving DecidableEq

/-- One `try: df.to_<fmt>(path); print(...) except Exception as e:
print(..., file=sys.stderr)` block of write_files: the export is
attempted; on success the file is written and the path reported on
stdout; on failure the error is caught and reported on stderr. -/
def exportStep (env : Fmt → Except String Unit) (f : Fmt) (p : PyPath) : List Event :=
  match env f with
  | Except.ok _ =>
      [Event.attempt f p, Event.written f p,
       Event.stdout ("Written " ++ f.label ++ ": " ++ p.toStr)]
  | Except.error e =>
      [Event.attempt f p,
       Event.stderr ("Error writing " ++ f.label ++ " to " ++ p.toStr ++ ": " ++ e)]

/-- `write_files(df, path_stem)` (create_test_samples.py lines 23-48):
`mkdir(parents=True, exist_ok=True)` on the parent directory, then the
four export blocks in source order. Total for every environment: every
per-format exception is caught inside. -/
def write_files (df : BDataFrame) (p : PyPath) (env : Fmt → Except String Unit) : List Event :=
  Event.mkdirParents p.dir ::
    (exportStep env Fmt.csv (p.with_suffix ".csv") ++
     exportStep env Fmt.json (p.with_suffix ".json") ++
     exportStep env Fmt.parquet (p.with_suffix ".parquet") ++
     exportStep env Fmt.xlsx (p.with_suffix ".xlsx"))

/-- `main()` of create_test_samples.py (lines 50-76) after argument
parsing: for each of the two datasets, synthesize and write; the script
then falls off the end of `main`, so the process exit status is 0
whatever the export outcomes were. Result: (event trace, exit status). -/
def main_run (baseDir : List String) (sampleRows sample2Rows : ℕ) (today : ℤ)
    (env1 env2 : Fmt → Except String Unit) : List Event × ℕ :=
  (write_files (generate_data "sample" sampleRows today)
      { dir := baseDir, stem := "sample", ext := "" } env1 ++
   write_files (generate_data "sample2" sample2Rows today)
      { dir := baseDir, stem := "sample2", ext := "" } env2,
   0)

/-- The effect trace of `create_test_data` (create_test_data.py lines
31-38): `Path('test_data').mkdir(exist_ok=True)` (no `parents=True`),
then a single parquet export and a stdout report. The remaining prints
are diagnostics on stdout (columns and dtypes) that no claim inspects;
the first one is kept as representative. -/
def create_test_data_events : List Event :=
  [Event.mkdirPlain ["test_data"],
   Event.written Fmt.parquet { dir := ["test_data"], stem := "test_reviews", ext := ".parquet" },
   Event.stdout "Created test data: test_data/test_reviews.parquet"]

/-- The formats attempted in a trace, in order. -/
def attemptsOf (tr : List Event) : List Fmt :=
  tr.filterMap (fun e =>
    match e with
    | Event.attempt f _ => some f
    | _ => none)

/-- The paths of export attempts in a trace, in order. -/
def attemptPathsOf (tr : List Event) : List PyPath :=
  tr.filterMap (fun e =>
    match e with
    | Event.attempt _ q => some q
    | _ => none)

/-- The paths of files actually written in a trace, in order. -/
def writtenPathsOf (tr : List Event) : List PyPath :=
  tr.filterMap (fun e =>
    match e with
    | Event.written _ q => some q
    | _ => none)

/-- `a` occurs strictly before `b` in the trace `tr`. -/
def precedesIn (tr : List Event) (a b : Event) : Prop :=
  ∃ i j, i < j ∧ tr.get? i = some a ∧ tr.get? j = some b

/-! ## Helper lemmas about the trace model -/

lemma attempt_mem_exportStep (env : Fmt → Except String Unit) (f : Fmt) (p : PyPath) :
    Event.attempt f p ∈ exportStep env f p := by
  unfold exportStep
  cases env f <;> simp

lemma stderr_mem_exportStep {env : Fmt → Except String Unit} {f : Fmt} {e : String}
    (p : PyPath) (h : env f = Except.error e) :
    Event.stderr ("Error writing " ++ f.label ++ " to " ++ p.toStr ++ ": " ++ e)
      ∈ exportStep env f p := by
  unfold exportStep
  rw [h]
  simp

lemma written_mem_exportStep {env : Fmt → Except String Unit} {f : Fmt} {u : Unit}
    (p : PyPath) (h : env f = Except.ok u) :
    Event.written f p ∈ exportStep env f p := by
  unfold exportStep
  rw [h]
  simp

lemma stdout_mem_exportStep {env : Fmt → Except String Unit} {f : Fmt} {u : Unit}
    (p : PyPath) (h : env f = Except.ok u) :
    Event.stdout ("Written " ++ f.label ++ ": " ++ p.toStr) ∈ exportStep env f p := by
  unfold exportStep
  rw [h]
  simp

/-- Membership in the per-format segment gives membership in the whole
`write_files` trace. -/
lemma mem_write_files_of_seg (df : BDataFrame) (p : PyPath)
    (env : Fmt → Except String Unit) (f : Fmt) {ev : Event}
    (h : ev ∈ exportStep env f (p.with_suffix f.ext)) :
    ev ∈ write_files df p env := by
  unfold write_files
  apply List.mem_cons_of_mem
  cases f
  · exact List.mem_append_left _ (List.mem_append_left _ (List.mem_append_left _ h))
  · exact List.mem_append_left _ (List.mem_append_left _ (List.mem_append_right _ h))
  · exact List.mem_append_left _ (List.mem_append_right _ h)
  · exact List.mem_append_right _ h

/-- `round(n * 1.1, 2)` is exactly `11n/10`: the product has one decimal
place, so two-place rounding is the identity on it. -/
lemma pyRound2_eleven_tenths (n : ℕ) : pyRound2 ((n : ℚ) * (11/10)) = (11 * n : ℚ) / 10 := by
  rw [pyRound2_eq_of_mul_hundred _ (110 * n) (by push_cast; ring)]
  push_cast
  ring

/-- The indexed row formula of `generate_data`: row `i` (1-based) sits at
list position `i - 1` and carries the six computed fields. -/
lemma generate_data_get (pre : String) (N : ℕ) (t : ℤ) (i : ℕ)
    (h1 : 1 ≤ i) (h2 : i ≤ N) :
    (generate_data pre N t).rows.get? (i - 1) =
      some { id := i, name := pre ++ "_item_" ++ toString i,
             value := pyRound2 ((i : ℚ) * (11/10)), date := t - (i : ℤ),
             flag := i % 2 == 0,
             category := ["A", "B", "C"].getD ((i - 1) % 3) "" } := by
  obtain ⟨j, rfl⟩ : ∃ j, i = j + 1 := ⟨i - 1, by omega⟩
  unfold generate_data
  rw [List.get?_map, List.get?_range (by omega : j + 1 - 1 < N)]
  rfl

/-! ## Claim theorems -/

/-- C1: for every prefix `p` and row count `N ≥ 1`, row `i ∈ [1, N]` of
`generate_data` has `id = i`, `name = p_item_i`, `value = round(i*1.1, 2)`,
`flag = (i % 2 == 0)` and `category = [A,B,C][(i-1) % 3]`; in particular
prefix `sample` with `N = 5` yields ids 1..5, names `sample_item_1..5`,
values 1.1, 2.2, 3.3, 4.4, 5.5, flags F,T,F,T,F, categories A,B,C,A,B. -/
theorem c1_generate_data_rows :
    (∀ (pre : String) (N : ℕ) (t : ℤ) (i : ℕ), 1 ≤ i → i ≤ N →
      (generate_data pre N t).rows.get? (i - 1) =
        some { id := i, name := pre ++ "_item_" ++ toString i,
               value := pyRound2 ((i : ℚ) * (11/10)), date := t - (i : ℤ),
               flag := i % 2 == 0,
               category := ["A", "B", "C"].getD ((i - 1) % 3) "" }) ∧
    (∀ t : ℤ,
      (generate_data "sample" 5 t).rows.map BRow.id = [1, 2, 3, 4, 5] ∧
      (generate_data "sample" 5 t).rows.map BRow.name =
        ["sample_item_1", "sample_item_2", "sample_item_3",
         "sample_item_4", "sample_item_5"] ∧
      (generate_data "sample" 5 t).rows.map BRow.value =
        [11/10, 22/10, 33/10, 44/10, 55/10] ∧
      (generate_data "sample" 5 t).rows.map BRow.flag =
        [false, true, false, true, false] ∧
      (generate_data "sample" 5 t).rows.map BRow.category = ["A", "B", "C", "A", "B"]) := by
  refine ⟨generate_data_get, fun t => ⟨rfl, rfl, ?_, rfl, rfl⟩⟩
  show [pyRound2 (((0 : ℕ) + 1 : ℕ) * (11/10 : ℚ)), pyRound2 (((1 : ℕ) + 1 : ℕ) * (11/10 : ℚ)),
        pyRound2 (((2 : ℕ) + 1 : ℕ) * (11/10 : ℚ)), pyRound2 (((3 : ℕ) + 1 : ℕ) * (11/10 : ℚ)),
        pyRound2 (((4 : ℕ) + 1 : ℕ) * (11/10 : ℚ))] = _
  rw [pyRound2_eleven_tenths, pyRound2_eleven_tenths, pyRound2_eleven_tenths,
      pyRound2_eleven_tenths, pyRound2_eleven_tenths]
  norm_num

/-- Witness for C1: concrete instantiation at prefix `a`, `N = 3`, `i = 2`. -/
theorem c1_generate_data_rows_witness :
    (generate_data "a" 3 0).rows.get? 1 =
      some { id := 2, name := "a" ++ "_item_" ++ toString 2,
             value := pyRound2 ((2 : ℚ) * (11/10)), date := 0 - (2 : ℤ),
             flag := 2 % 2 == 0,
             category := ["A", "B", "C"].getD (1 % 3) "" } :=
  c1_generate_data_rows.1 "a" 3 0 2 (by decide) (by decide)

/-- C2 counterexample: at `N = 0` the Variant B DataFrame is built from an
empty record list, so its column index is empty — not the six declared
columns. -/
theorem c2_counterexample :
    (generate_data "sample" 0 0).columns ≠ ["id", "name", "value", "date", "flag", "category"] := by
  decide

/-- C2 (amended): the synthesized table always has exactly `N` rows, and
for `N ≥ 1` exactly the declared column set; but at the boundary `N = 0`
the Variant B column set is empty, not the declared six. Variant A (row
count fixed at 1000) always has its 14 columns of length 1000. -/
theorem c2_rows_and_columns :
    (∀ (pre : String) (N : ℕ) (t : ℤ), (generate_data pre N t).rows.length = N) ∧
    (∀ (pre : String) (N : ℕ) (t : ℤ), 1 ≤ N →
      (generate_data pre N t).columns = variantB_columns) ∧
    (∀ (pre : String) (t : ℤ), (generate_data pre 0 t).columns = []) ∧
    (∀ g : ℕ → ℕ, colLengths (create_test_data_with g) = List.replicate 14 n_rows_A) := by
  refine ⟨fun pre N t => ?_, fun pre N t h => ?_, fun pre t => ?_, fun g => ?_⟩
  · simp [generate_data]
  · simp only [BDataFrame.columns, generate_data]
    rw [if_neg]
    simp [List.isEmpty_iff, List.range_eq_nil]
    omega
  · rfl
  · show colLengths (create_test_data_with g) =
      [n_rows_A, n_rows_A, n_rows_A, n_rows_A, n_rows_A, n_rows_A, n_rows_A,
       n_rows_A, n_rows_A, n_rows_A, n_rows_A, n_rows_A, n_rows_A, n_rows_A]
    simp [colLengths, create_test_data_with, rngCol]

/-- Witness for C2 (amended): at `N = 2` the column set is the declared one. -/
theorem c2_rows_and_columns_witness :
    1 ≤ 2 ∧ (generate_data "x" 2 0).columns = variantB_columns :=
  ⟨by decide, c2_rows_and_columns.2.1 "x" 2 0 (by decide)⟩

/-- `np.random.randint(lo, hi)` lands in `[lo, hi)` for every raw draw. -/
lemma np_randint_bounds (lo hi : ℤ) (r : ℕ) (h : lo < hi) :
    lo ≤ np_randint lo hi r ∧ np_randint lo hi r < hi := by
  unfold np_randint
  have h1 : (0 : ℤ) ≤ (r : ℤ) % (hi - lo) := Int.emod_nonneg _ (by omega)
  have h2 : (r : ℤ) % (hi - lo) < hi - lo := Int.emod_lt_of_pos _ (by omega)
  omega

/-- Every element of a random column is the draw function applied to some
raw draw. -/
lemma mem_rngCol {g : ℕ → ℕ} {ofs n : ℕ} {f : ℕ → ℤ} {x : ℤ}
    (hx : x ∈ rngCol g ofs n f) : ∃ r : ℕ, x = f r := by
  simp only [rngCol, List.mem_map, List.mem_range] at hx
  obtain ⟨i, _, h⟩ := hx
  exact ⟨g (ofs + i), h.symm⟩

/-- C4: in every Variant A synthesis, each `overall_rating` lies in [1,5],
each `age` in [18,80] and each `duration` in [1,365]. (The generator in
fact stays inside the strictly smaller ranges [18,79] and [1,364], since
`np.random.randint`'s upper bound is exclusive.) -/
theorem c4_variantA_ranges (g : ℕ → ℕ) :
    (∀ x ∈ (create_test_data_with g).overall_rating, 1 ≤ x ∧ x ≤ 5) ∧
    (∀ x ∈ (create_test_data_with g).age, 18 ≤ x ∧ x ≤ 80) ∧
    (∀ x ∈ (create_test_data_with g).duration, 1 ≤ x ∧ x ≤ 365) := by
  refine ⟨fun x hx => ?_, fun x hx => ?_, fun x hx => ?_⟩
  · simp only [create_test_data_with] at hx
    obtain ⟨r, rfl⟩ := mem_rngCol hx
    have := np_randint_bounds 1 6 r (by omega)
    omega
  · simp only [create_test_data_with] at hx
    obtain ⟨r, rfl⟩ := mem_rngCol hx
    have := np_randint_bounds 18 80 r (by omega)
    omega
  · simp only [create_test_data_with] at hx
    obtain ⟨r, rfl⟩ := mem_rngCol hx
    have := np_randint_bounds 1 365 r (by omega)
    omega

/-- Witness for C4: with the all-zero raw stream, 1 is a rating value and
the bounds hold for it. -/
theorem c4_variantA_ranges_witness :
    (1 : ℤ) ∈ (create_test_data_with (fun _ => 0)).overall_rating ∧
      (1 ≤ (1 : ℤ) ∧ (1 : ℤ) ≤ 5) := by
  have hm : (1 : ℤ) ∈ (create_test_data_with (fun _ => 0)).overall_rating := by
    simp only [create_test_data_with, rngCol, List.mem_map, List.mem_range]
    exact ⟨0, by norm_num [n_rows_A], by decide⟩
  exact ⟨hm, (c4_variantA_ranges (fun _ => 0)).1 1 hm⟩

/-- C7: two runs of `create_test_data` with the same seed (42) and row
count (1000) produce tables whose 14 columns all coincide. The embedded
synthesis reads no ambient state (no clock, no filesystem): with the seed
fixed by `np.random.seed(42)`, the table is a closed term, so any two run
results are equal column by column. -/
theorem c7_variantA_deterministic (t1 t2 : ATable)
    (h1 : t1 = create_test_data_table) (h2 : t2 = create_test_data_table) :
    t1.source = t2.source ∧ t1.product = t2.product ∧
    t1.overall_rating = t2.overall_rating ∧ t1.condition = t2.condition ∧
    t1.comment = t2.comment ∧ t1.sex = t2.sex ∧ t1.duration = t2.duration ∧
    t1.date = t2.date ∧ t1.age = t2.age ∧ t1.username = t2.username ∧
    t1.patient_type = t2.patient_type ∧ t1.INN = t2.INN ∧
    t1.prediction = t2.prediction ∧ t1.predicted_label = t2.predicted_label := by
  subst h1
  subst h2
  exact ⟨rfl, rfl, rfl, rfl, rfl, rfl, rfl, rfl, rfl, rfl, rfl, rfl, rfl, rfl⟩

/-- Witness for C7: the two runs instantiated with the actual table. -/
theorem c7_variantA_deterministic_witness :
    create_test_data_table.source = create_test_data_table.source ∧
    create_test_data_table.product = create_test_data_table.product ∧
    create_test_data_table.overall_rating = create_test_data_table.overall_rating ∧
    create_test_data_table.condition = create_test_data_table.condition ∧
    create_test_data_table.comment = create_test_data_table.comment ∧
    create_test_data_table.sex = create_test_data_table.sex ∧
    create_test_data_table.duration = create_test_data_table.duration ∧
    create_test_data_table.date = create_test_data_table.date ∧
    create_test_data_table.age = create_test_data_table.age ∧
    create_test_data_table.username = create_test_data_table.username ∧
    create_test_data_table.patient_type = create_test_data_table.patient_type ∧
    create_test_data_table.INN = create_test_data_table.INN ∧
    create_test_data_table.prediction = create_test_data_table.prediction ∧
    create_test_data_table.predicted_label = create_test_data_table.predicted_label :=
  c7_variantA_deterministic create_test_data_table create_test_data_table rfl rfl

/-- Head element precedes any member of the tail. -/
lemma precedes_head {a b : Event} {rest : List Event} (hne : b ≠ a) (h : b ∈ a :: rest) :
    precedesIn (a :: rest) a b := by
  have hb : b ∈ rest := by
    rcases List.mem_cons.mp h with h1 | h1
    · exact absurd h1 hne
    · exact h1
  obtain ⟨n, hn⟩ := List.mem_iff_get?.mp hb
  exact ⟨0, n + 1, Nat.succ_pos n, rfl, by simpa using hn⟩

/-- C3: a failing export inside `write_files` is caught: the error text
with the offending path goes to stderr, every format is still attempted,
and every format whose export succeeds is written and reported on stdout.
`write_files` returns a complete trace for every environment, so no
export failure propagates out of it. -/
theorem c3_failure_isolation (df : BDataFrame) (p : PyPath)
    (env : Fmt → Except String Unit) (f : Fmt) (e : String)
    (h : env f = Except.error e) :
    Event.stderr ("Error writing " ++ f.label ++ " to " ++ (p.with_suffix f.ext).toStr ++ ": " ++ e)
        ∈ write_files df p env ∧
    (∀ f' : Fmt, Event.attempt f' (p.with_suffix f'.ext) ∈ write_files df p env) ∧
    (∀ (f' : Fmt) (u : Unit), env f' = Except.ok u →
      Event.written f' (p.with_suffix f'.ext) ∈ write_files df p env ∧
      Event.stdout ("Written " ++ f'.label ++ ": " ++ (p.with_suffix f'.ext).toStr)
          ∈ write_files df p env) :=
  ⟨mem_write_files_of_seg df p env f (stderr_mem_exportStep _ h),
   fun f' => mem_write_files_of_seg df p env f' (attempt_mem_exportStep env f' _),
   fun f' u h' =>
     ⟨mem_write_files_of_seg df p env f' (written_mem_exportStep _ h'),
      mem_write_files_of_seg df p env f' (stdout_mem_exportStep _ h')⟩⟩

/-- Witness for C3: a CSV-failing environment over a concrete table. -/
theorem c3_failure_isolation_witness :
    (fun f => if f = Fmt.csv then (Except.error "boom" : Except String Unit)
      else Except.ok ()) Fmt.csv = Except.error "boom" ∧
    Event.stderr ("Error writing " ++ Fmt.csv.label ++ " to "
        ++ ((PyPath.mk ["tests"] "sample" "").with_suffix Fmt.csv.ext).toStr ++ ": " ++ "boom")
      ∈ write_files (generate_data "sample" 1 0) (PyPath.mk ["tests"] "sample" "")
          (fun f => if f = Fmt.csv then Except.error "boom" else Except.ok ()) :=
  ⟨rfl,
   (c3_failure_isolation (generate_data "sample" 1 0) (PyPath.mk ["tests"] "sample" "")
     (fun f => if f = Fmt.csv then Except.error "boom" else Except.ok ())
     Fmt.csv "boom" rfl).1⟩

/-- C5: the Variant B script's process exit status is 0 for every export
environment — including ones where exports fail — and a failing export
surfaces only as a stderr message in the trace. -/
theorem c5_exit_zero (baseDir : List String) (r1 r2 : ℕ) (t : ℤ)
    (env1 env2 : Fmt → Except String Unit) :
    (main_run baseDir r1 r2 t env1 env2).2 = 0 ∧
    (∀ (f : Fmt) (e : String), env1 f = Except.error e →
      Event.stderr ("Error writing " ++ f.label ++ " to "
          ++ ((PyPath.mk baseDir "sample" "").with_suffix f.ext).toStr ++ ": " ++ e)
        ∈ (main_run baseDir r1 r2 t env1 env2).1) ∧
    (∀ (f : Fmt) (e : String), env2 f = Except.error e →
      Event.stderr ("Error writing " ++ f.label ++ " to "
          ++ ((PyPath.mk baseDir "sample2" "").with_suffix f.ext).toStr ++ ": " ++ e)
        ∈ (main_run baseDir r1 r2 t env1 env2).1) := by
  refine ⟨rfl, fun f e h => ?_, fun f e h => ?_⟩
  · exact List.mem_append_left _
      (mem_write_files_of_seg _ _ env1 f (stderr_mem_exportStep _ h))
  · exact List.mem_append_right _
      (mem_write_files_of_seg _ _ env2 f (stderr_mem_exportStep _ h))

/-- Witness for C5: a run whose CSV export fails still exits 0 and logs
the failure to stderr. -/
theorem c5_exit_zero_witness :
    (main_run ["tests"] 1 1 0
      (fun f => if f = Fmt.csv then Except.error "boom" else Except.ok ())
      (fun _ => Except.ok ())).2 = 0 ∧
    Event.stderr ("Error writing " ++ Fmt.csv.label ++ " to "
        ++ ((PyPath.mk ["tests"] "sample" "").with_suffix Fmt.csv.ext).toStr ++ ": " ++ "boom")
      ∈ (main_run ["tests"] 1 1 0
          (fun f => if f = Fmt.csv then Except.error "boom" else Except.ok ())
          (fun _ => Except.ok ())).1 :=
  ⟨(c5_exit_zero ["tests"] 1 1 0 _ _).1,
   (c5_exit_zero ["tests"] 1 1 0
     (fun f => if f = Fmt.csv then Except.error "boom" else Except.ok ())
     (fun _ => Except.ok ())).2.1 Fmt.csv "boom" rfl⟩

/-- C6: `write_files` records the recursive directory creation as the
very first event of its trace, so it precedes every written file. -/
theorem c6_mkdir_first (df : BDataFrame) (p : PyPath) (env : Fmt → Except String Unit) :
    (write_files df p env).get? 0 = some (Event.mkdirParents p.dir) ∧
    ∀ (f : Fmt) (q : PyPath), Event.written f q ∈ write_files df p env →
      precedesIn (write_files df p env) (Event.mkdirParents p.dir) (Event.written f q) := by
  refine ⟨rfl, fun f q hmem => ?_⟩
  exact precedes_head (by simp) hmem

/-- Witness for C6: the parquet file written by an all-success run is
preceded by the directory creation. -/
theorem c6_mkdir_first_witness :
    precedesIn
      (write_files (generate_data "sample" 1 0) (PyPath.mk ["tests"] "sample" "")
        (fun _ => Except.ok ()))
      (Event.mkdirParents ["tests"])
      (Event.written Fmt.parquet ((PyPath.mk ["tests"] "sample" "").with_suffix ".parquet")) :=
  (c6_mkdir_first (generate_data "sample" 1 0) (PyPath.mk ["tests"] "sample" "")
      (fun _ => Except.ok ())).2 Fmt.parquet
    ((PyPath.mk ["tests"] "sample" "").with_suffix ".parquet") (by decide)

/-- C8: for every table and environment, `write_files` attempts exactly
the four formats, once each, in source order CSV, JSON, Parquet, Excel,
and (being a total function) reaches its terminal state after those four
attempts regardless of the individual outcomes. -/
theorem c8_attempt_order (df : BDataFrame) (p : PyPath) (env : Fmt → Except String Unit) :
    attemptsOf (write_files df p env) = [Fmt.csv, Fmt.json, Fmt.parquet, Fmt.xlsx] := by
  unfold write_files attemptsOf
  rcases hc : env Fmt.csv <;> rcases hj : env Fmt.json <;>
    rcases hp : env Fmt.parquet <;> rcases hx : env Fmt.xlsx <;>
    simp [exportStep, hc, hj, hp, hx]

/-- C9 counterexample: the Variant A script (`create_test_data`) writes a
single file, `test_data/test_reviews.parquet`, not four sibling files. -/
theorem c9_counterexample :
    (writtenPathsOf create_test_data_events).length = 1 ∧
    (writtenPathsOf create_test_data_events).length ≠ 4 := by
  decide

/-- C9 (amended): for each dataset of the Variant B script, the four
export attempts target sibling paths sharing one stem and differing only
in extension, under the resolved base directory, and when all four
succeed exactly those four files are written; the Variant A script
instead writes the single parquet file `test_data/test_reviews.parquet`. -/
theorem c9_sibling_files (df : BDataFrame) (p : PyPath) (env : Fmt → Except String Unit) :
    attemptPathsOf (write_files df p env) =
      [p.with_suffix ".csv", p.with_suffix ".json",
       p.with_suffix ".parquet", p.with_suffix ".xlsx"] ∧
    (∀ e : String, (p.with_suffix e).dir = p.dir ∧ (p.with_suffix e).stem = p.stem) ∧
    ((∀ f : Fmt, env f = Except.ok ()) →
      writtenPathsOf (write_files df p env) =
        [p.with_suffix ".csv", p.with_suffix ".json",
         p.with_suffix ".parquet", p.with_suffix ".xlsx"]) ∧
    writtenPathsOf create_test_data_events =
      [{ dir := ["test_data"], stem := "test_reviews", ext := ".parquet" }] := by
  refine ⟨?_, fun e => ⟨rfl, rfl⟩, fun hok => ?_, rfl⟩
  · unfold write_files attemptPathsOf
    rcases hc : env Fmt.csv <;> rcases hj : env Fmt.json <;>
      rcases hp : env Fmt.parquet <;> rcases hx : env Fmt.xlsx <;>
      simp [exportStep, hc, hj, hp, hx]
  · unfold write_files writtenPathsOf
    simp [exportStep, hok]

/-- Witness for C9 (amended): an all-success environment writes exactly
the four sibling files. -/
theorem c9_sibling_files_witness :
    writtenPathsOf
        (write_files (generate_data "sample" 1 0) (PyPath.mk ["tests"] "sample" "")
          (fun _ => Except.ok ())) =
      [(PyPath.mk ["tests"] "sample" "").with_suffix ".csv",
       (PyPath.mk ["tests"] "sample" "").with_suffix ".json",
       (PyPath.mk ["tests"] "sample" "").with_suffix ".parquet",
       (PyPath.mk ["tests"] "sample" "").with_suffix ".xlsx"] :=
  (c9_sibling_files (generate_data "sample" 1 0) (PyPath.mk ["tests"] "sample" "")
      (fun _ => Except.ok ())).2.2.1 (fun _ => rfl)

/-- The `id` column of `generate_data` is a pure function of the row count. -/
lemma gd_id_col (pre : String) (rows : ℕ) (t : ℤ) :
    (generate_data pre rows t).rows.map BRow.id = (List.range rows).map (fun j => j + 1) := by
  unfold generate_data
  rw [List.map_map]
  rfl

/-- The `name` column is a pure function of prefix and row count. -/
lemma gd_name_col (pre : String) (rows : ℕ) (t : ℤ) :
    (generate_data pre rows t).rows.map BRow.name =
      (List.range rows).map (fun j => pre ++ "_item_" ++ toString (j + 1)) := by
  unfold generate_data
  rw [List.map_map]
  rfl

/-- The `value` column is a pure function of the row count. -/
lemma gd_value_col (pre : String) (rows : ℕ) (t : ℤ) :
    (generate_data pre rows t).rows.map BRow.value =
      (List.range rows).map (fun j => pyRound2 (((j + 1 : ℕ) : ℚ) * (11/10))) := by
  unfold generate_data
  rw [List.map_map]
  rfl

/-- The `flag` column is a pure function of the row count. -/
lemma gd_flag_col (pre : String) (rows : ℕ) (t : ℤ) :
    (generate_data pre rows t).rows.map BRow.flag =
      (List.range rows).map (fun j => (j + 1) % 2 == 0) := by
  unfold generate_data
  rw [List.map_map]
  rfl

/-- The `category` column is a pure function of the row count. -/
lemma gd_category_col (pre : String) (rows : ℕ) (t : ℤ) :
    (generate_data pre rows t).rows.map BRow.category =
      (List.range rows).map (fun j => ["A", "B", "C"].getD ((j + 1 - 1) % 3) "") := by
  unfold generate_data
  rw [List.map_map]
  rfl

/-- The `date` column depends on the invocation day `t`. -/
lemma gd_date_col (pre : String) (rows : ℕ) (t : ℤ) :
    (generate_data pre rows t).rows.map BRow.date =
      (List.range rows).map (fun j => t - ((j + 1 : ℕ) : ℤ)) := by
  unfold generate_data
  rw [List.map_map]
  rfl

/-- C10: two `generate_data` runs with the same prefix and row count
agree on every column except `date`; row `i`'s date is exactly `i` days
before the invocation day, so (for at least one row) runs on different
days differ in the `date` column, and only there. -/
theorem c10_only_date_depends_on_today (pre : String) (rows : ℕ) (t1 t2 : ℤ) :
    ((generate_data pre rows t1).rows.map BRow.id =
        (generate_data pre rows t2).rows.map BRow.id ∧
     (generate_data pre rows t1).rows.map BRow.name =
        (generate_data pre rows t2).rows.map BRow.name ∧
     (generate_data pre rows t1).rows.map BRow.value =
        (generate_data pre rows t2).rows.map BRow.value ∧
     (generate_data pre rows t1).rows.map BRow.flag =
        (generate_data pre rows t2).rows.map BRow.flag ∧
     (generate_data pre rows t1).rows.map BRow.category =
        (generate_data pre rows t2).rows.map BRow.category) ∧
    (∀ j : ℕ, j < rows →
      ((generate_data pre rows t1).rows.map BRow.date).get? j =
        some (t1 - ((j + 1 : ℕ) : ℤ))) ∧
    (1 ≤ rows → t1 ≠ t2 →
      (generate_data pre rows t1).rows.map BRow.date ≠
        (generate_data pre rows t2).rows.map BRow.date) := by
  refine ⟨⟨?_, ?_, ?_, ?_, ?_⟩, fun j hj => ?_, fun hrows hne heq => ?_⟩
  · rw [gd_id_col, gd_id_col]
  · rw [gd_name_col, gd_name_col]
  · rw [gd_value_col, gd_value_col]
  · rw [gd_flag_col, gd_flag_col]
  · rw [gd_category_col, gd_category_col]
  · rw [gd_date_col, List.get?_map, List.get?_range hj]
    rfl
  · rw [gd_date_col, gd_date_col] at heq
    have h0 := congrArg (fun l => l.get? 0) heq
    simp only [List.get?_map, List.get?_range (by omega : 0 < rows)] at h0
    have : t1 - ((0 + 1 : ℕ) : ℤ) = t2 - ((0 + 1 : ℕ) : ℤ) := by
      simpa using h0
    omega

/-- Witness for C10: two runs one day apart with two rows produce
different date columns. -/
theorem c10_only_date_depends_on_today_witness :
    (generate_data "p" 2 0).rows.map BRow.date ≠
      (generate_data "p" 2 1).rows.map BRow.date :=
  (c10_only_date_depends_on_today "p" 2 0 1).2.2 (by decide) (by decide)
